import Mathlib

/-!
Verification development for the `ap.py` MCP server (weather / GitHub /
Indian Rail tools).

The tool functions of `ap.py` are shallowly embedded as pure Lean functions.
Conventions of the embedding:

* JSON values are modelled by the inductive `Json` (numbers as `Int`; the
  claims under study never depend on float-valued JSON fields).
* Python runtime faults that the tool bodies can raise (`KeyError`,
  `AttributeError`, `TypeError`) are modelled by `Except PyErr`.
* The HTTP helpers `make_nws_request` / `make_github_request` return
  `dict | None`; they are modelled by an oracle `respond : String → Option Json`
  mapping a request URL to the parsed body (`none` = the helper's uniform
  failure result).  `fetch_data` always returns a `dict` (either the body or
  `{"error": str(e)}`), so the Indian Rail tools take `respond : String → Json`.
* The Indian Rail tools additionally return the list of URLs they requested,
  so that "performs no network call" is expressible.
* Python truthiness, `dict.get`, `d[k]`, `x in d`, iteration, `len`, and
  slicing `[:n]` are modelled by `truthy`, `pyGetD`/`pyGet1`, `pyIndex`,
  `pyInStr`, `pyIter`, `pyLen`, `pySliceTake`.
* `str.upper()` is modelled by the character-wise ASCII map `pyUpper`
  (the CPython behaviour on the basic latin range).
* `float` parameters of `get_forecast` are modelled by their rendered
  decimal strings; no claim depends on float arithmetic.
-/

/-- A JSON value, as produced by `response.json()`. -/
inductive Json where
  | null
  | bool (b : Bool)
  | num (n : Int)
  | str (s : String)
  | arr (elems : List Json)
  | obj (fields : List (String × Json))

/-- The Python runtime faults the tool bodies can raise. -/
inductive PyErr where
  | keyError (k : String)
  | attributeError
  | typeError
deriving DecidableEq

mutual

/-- Python `repr` of a JSON value (string escaping is not modelled; no claim
depends on it). -/
def pyRepr : Json → String
  | .null => "None"
  | .bool true => "True"
  | .bool false => "False"
  | .num n => toString n
  | .str s => "'" ++ s ++ "'"
  | .arr elems => "[" ++ String.intercalate ", " (pyReprList elems) ++ "]"
  | .obj fields => "\x7b" ++ String.intercalate ", " (pyReprPairs fields) ++ "\x7d"

/-- `repr` of the elements of a JSON array. -/
def pyReprList : List Json → List String
  | [] => []
  | x :: xs => pyRepr x :: pyReprList xs

/-- `repr` of the key/value pairs of a JSON object. -/
def pyReprPairs : List (String × Json) → List String
  | [] => []
  | (k, v) :: xs => ("'" ++ k ++ "': " ++ pyRepr v) :: pyReprPairs xs

end

/-- Python `str()` of a JSON value, as interpolated by an f-string. -/
def pyStr : Json → String
  | .str s => s
  | v => pyRepr v

/-- Python truthiness of a JSON value (`if x:`). -/
def truthy : Json → Bool
  | .null => false
  | .bool b => b
  | .num n => n != 0
  | .str s => !s.isEmpty
  | .arr elems => !elems.isEmpty
  | .obj fields => !fields.isEmpty

/-- Truthiness of a `dict | None` value. -/
def optTruthy : Option Json → Bool
  | none => false
  | some v => truthy v

/-- First value bound to a key in a JSON object's field list. -/
def getKey? : List (String × Json) → String → Option Json
  | [], _ => none
  | (k, v) :: rest, key => if k == key then some v else getKey? rest key

/-- Python `d.get(key, default)`: `AttributeError` on non-dicts. -/
def pyGetD (d : Json) (key : String) (dflt : Json) : Except PyErr Json :=
  match d with
  | .obj fields => .ok ((getKey? fields key).getD dflt)
  | _ => .error .attributeError

/-- Python `d.get(key)` (default `None`). -/
def pyGet1 (d : Json) (key : String) : Except PyErr Json :=
  pyGetD d key .null

/-- Python `d[key]`: `KeyError` on a missing key, `TypeError` on non-dicts. -/
def pyIndex (d : Json) (key : String) : Except PyErr Json :=
  match d with
  | .obj fields =>
    match getKey? fields key with
    | some v => .ok v
    | none => .error (.keyError key)
  | _ => .error .typeError

/-- Naive substring test (only totality matters to the claims). -/
def strContains (hay needle : String) : Bool :=
  needle.isEmpty || (hay.splitOn needle).length != 1

/-- Python `s in d` for a string `s`: key membership for dicts, element
membership for lists, substring test for strings, `TypeError` otherwise. -/
def pyInStr (s : String) (d : Json) : Except PyErr Bool :=
  match d with
  | .obj fields => .ok (fields.any (fun kv => kv.1 == s))
  | .arr elems => .ok (elems.any (fun e =>
      match e with
      | .str t => t == s
      | _ => false))
  | .str t => .ok (strContains t s)
  | _ => .error .typeError

/-- Python iteration `for x in d`: elements of a list, characters of a
string, keys of a dict; `TypeError` otherwise. -/
def pyIter : Json → Except PyErr (List Json)
  | .arr elems => .ok elems
  | .str s => .ok (s.data.map (fun c => .str (String.singleton c)))
  | .obj fields => .ok (fields.map (fun kv => .str kv.1))
  | _ => .error .typeError

/-- Python slicing `d[:n]`: prefix of a list or string, `TypeError`
otherwise. -/
def pySliceTake (n : Nat) : Json → Except PyErr Json
  | .arr elems => .ok (.arr (elems.take n))
  | .str s => .ok (.str (s.take n))
  | _ => .error .typeError

/-- Python `len(d)`. -/
def pyLen : Json → Except PyErr Nat
  | .str s => .ok s.length
  | .arr elems => .ok elems.length
  | .obj fields => .ok fields.length
  | _ => .error .typeError

/-- Coercion used by `str.join`: joining non-strings raises `TypeError`. -/
def pyAsStr : Json → Except PyErr String
  | .str s => .ok s
  | _ => .error .typeError

/-- Python `v == n` for an integer literal `n` (booleans compare as 0/1). -/
def jsonEqNum (v : Json) (n : Int) : Bool :=
  match v with
  | .num m => m == n
  | .bool b => (if b then (1 : Int) else 0) == n
  | _ => false

/-- Sequential map over a list in `Except`, the meaning of a Python
`for`-loop body that can raise. -/
def mapE {α β : Type} (f : α → Except PyErr β) : List α → Except PyErr (List β)
  | [] => .ok []
  | x :: xs => do
    let y ← f x
    let ys ← mapE f xs
    return y :: ys

/-- Python `str.upper()` (character-wise; ASCII range as in `Char.toUpper`). -/
def pyUpper (s : String) : String :=
  String.mk (s.data.map Char.toUpper)

/-- Python `str.lower()` (character-wise; ASCII range as in `Char.toLower`). -/
def pyLower (s : String) : String :=
  String.mk (s.data.map Char.toLower)

/-- Whether a tool body finished with a text result rather than raising. -/
def isOkE {α : Type} : Except PyErr α → Bool
  | .ok _ => true
  | .error _ => false

/-- Truthiness of `INDIAN_RAIL_API_KEY` (`os.getenv` result: unset or a
string). -/
def keyTruthy : Option String → Bool
  | none => false
  | some s => !s.isEmpty

/-- `NWS_API_BASE` constant of `ap.py`. -/
def NWS_API_BASE : String := "https://api.weather.gov"

/-- `GITHUB_API_BASE` constant of `ap.py`. -/
def GITHUB_API_BASE : String := "https://api.github.com"

/-- `INDIAN_RAIL_BASE_URL` constant of `ap.py`. -/
def INDIAN_RAIL_BASE_URL : String := "https://indianrailapi.com/api/v2"

/-- URL built by `get_alerts` (line 90): the state is embedded verbatim. -/
def get_alerts_url (state : String) : String :=
  NWS_API_BASE ++ "/alerts/active/area/" ++ state

/-- Points URL built by `get_forecast` (line 102); the floats appear via
their rendered decimal strings. -/
def get_forecast_points_url (latitude longitude : String) : String :=
  NWS_API_BASE ++ "/points/" ++ latitude ++ "," ++ longitude

/-- URL built by `get_github_user` (line 127). -/
def get_github_user_url (username : String) : String :=
  GITHUB_API_BASE ++ "/users/" ++ username

/-- URL built by `get_github_repos` (lines 147-148), after the clamp
`limit = min(limit, 50)`. -/
def get_github_repos_url (username : String) (limit : Int) : String :=
  let limit := min limit 50
  GITHUB_API_BASE ++ "/users/" ++ username ++ "/repos?sort=updated&per_page=" ++ toString limit

/-- URL built by `get_github_repo_info` (line 169). -/
def get_github_repo_info_url (owner repo : String) : String :=
  GITHUB_API_BASE ++ "/repos/" ++ owner ++ "/" ++ repo

/-- URL built by `search_github_repos` (lines 193-194), after the clamp
`limit = min(limit, 30)`. -/
def search_github_repos_url (query : String) (limit : Int) : String :=
  let limit := min limit 30
  GITHUB_API_BASE ++ "/search/repositories?q=" ++ query ++ "&sort=stars&order=desc&per_page=" ++ toString limit

/-- URL built by `get_github_issues` (lines 214-217), after the clamp
`limit = min(limit, 30)` and the fallback of `state` to `"open"`. -/
def get_github_issues_url (owner repo state : String) (limit : Int) : String :=
  let limit := min limit 30
  let state := if ["open", "closed", "all"].contains state then state else "open"
  GITHUB_API_BASE ++ "/repos/" ++ owner ++ "/" ++ repo ++ "/issues?state=" ++ state ++ "&per_page=" ++ toString limit

/-- URL built by `get_github_commits` (lines 238-239), after the clamp
`limit = min(limit, 20)`. -/
def get_github_commits_url (owner repo : String) (limit : Int) : String :=
  let limit := min limit 20
  GITHUB_API_BASE ++ "/repos/" ++ owner ++ "/" ++ repo ++ "/commits?per_page=" ++ toString limit

/-- URL built by `station_name_to_code` (line 264); `station_name` has
already been uppercased at this point. -/
def station_name_to_code_url (key station_name : String) : String :=
  INDIAN_RAIL_BASE_URL ++ "/StationNameToCode/apikey/" ++ key ++ "/StationName/" ++ station_name

/-- URL built by `get_train_schedule_indian_rail` (line 290). -/
def get_train_schedule_url (key train_number : String) : String :=
  INDIAN_RAIL_BASE_URL ++ "/TrainSchedule/apikey/" ++ key ++ "/TrainNumber/" ++ train_number

/-- URL built by `get_all_trains_on_station` (line 319); `station_code` has
already been uppercased at this point. -/
def get_all_trains_url (key station_code : String) : String :=
  INDIAN_RAIL_BASE_URL ++ "/AllTrainOnStation/apikey/" ++ key ++ "/StationCode/" ++ station_code

/-- `format_alert` (lines 77-85): direct index into `feature["properties"]`,
then `.get` with defaults. -/
def format_alert (feature : Json) : Except PyErr String := do
  let props ← pyIndex feature "properties"
  let event ← pyGetD props "event" (.str "Unknown")
  let area ← pyGetD props "areaDesc" (.str "Unknown")
  let severity ← pyGetD props "severity" (.str "Unknown")
  let description ← pyGetD props "description" (.str "No description available")
  let instruction ← pyGetD props "instruction" (.str "No specific instructions provided")
  return "\nEvent: " ++ pyStr event ++ "\nArea: " ++ pyStr area ++ "\nSeverity: " ++ pyStr severity ++ "\nDescription: " ++ pyStr description ++ "\nInstructions: " ++ pyStr instruction ++ "\n"

/-- `get_alerts` (lines 87-97). -/
def get_alerts (state : String) (respond : String → Option Json) : Except PyErr String :=
  match respond (get_alerts_url state) with
  | none => .ok "Unable to fetch alerts or no alerts found."
  | some data =>
    if !truthy data then .ok "Unable to fetch alerts or no alerts found." else do
      let mem ← pyInStr "features" data
      if !mem then return "Unable to fetch alerts or no alerts found." else do
        let features ← pyIndex data "features"
        if !truthy features then return "No active alerts for this state." else do
          let items ← pyIter features
          let alerts ← mapE format_alert items
          return String.intercalate "\n---\n" alerts

/-- Body of the `for period in periods[:5]` loop of `get_forecast`
(lines 113-118): direct indexing into each period. -/
def forecastEntry (period : Json) : Except PyErr String := do
  let name ← pyIndex period "name"
  let temperature ← pyIndex period "temperature"
  let temperatureUnit ← pyIndex period "temperatureUnit"
  let windSpeed ← pyIndex period "windSpeed"
  let windDirection ← pyIndex period "windDirection"
  let detailedForecast ← pyIndex period "detailedForecast"
  return "\n" ++ pyStr name ++ ":\nTemperature: " ++ pyStr temperature ++ "°" ++ pyStr temperatureUnit ++ "\nWind: " ++ pyStr windSpeed ++ " " ++ pyStr windDirection ++ "\nForecast: " ++ pyStr detailedForecast ++ "\n"

/-- The `forecasts` list built by `get_forecast` (lines 111-119) from the
`periods` value: slice `[:5]`, iterate, render each period. -/
def forecastEntriesOf (periods : Json) : Except PyErr (List String) := do
  let sliced ← pySliceTake 5 periods
  let items ← pyIter sliced
  mapE forecastEntry items

/-- `get_forecast` (lines 99-120).  The second request is issued only when
`points_data["properties"]["forecast"]` is a string (a non-string URL makes
`httpx` raise inside `make_nws_request`, which returns `None`). -/
def get_forecast (latitude longitude : String) (respond : String → Option Json) : Except PyErr String :=
  match respond (get_forecast_points_url latitude longitude) with
  | none => .ok "Unable to fetch forecast data for this location."
  | some points_data =>
    if !truthy points_data then .ok "Unable to fetch forecast data for this location." else do
      let props ← pyIndex points_data "properties"
      let forecast_url ← pyIndex props "forecast"
      let forecast_data := match forecast_url with
        | .str u => respond u
        | _ => none
      match forecast_data with
      | none => return "Unable to fetch detailed forecast."
      | some fd =>
        if !truthy fd then return "Unable to fetch detailed forecast." else do
          let fprops ← pyIndex fd "properties"
          let periods ← pyIndex fprops "periods"
          let forecasts ← forecastEntriesOf periods
          return String.intercalate "\n---\n" forecasts

/-- `get_github_user` (lines 124-142): every field via `.get` with a
literal placeholder default. -/
def get_github_user (username : String) (respond : String → Option Json) : Except PyErr String :=
  match respond (get_github_user_url username) with
  | none => .ok ("Unable to fetch user information for " ++ username)
  | some data =>
    if !truthy data then .ok ("Unable to fetch user information for " ++ username) else do
      let login ← pyGetD data "login" (.str "N/A")
      let name ← pyGetD data "name" (.str "N/A")
      let bio ← pyGetD data "bio" (.str "No bio available")
      let publicRepos ← pyGetD data "public_repos" (.num 0)
      let followers ← pyGetD data "followers" (.num 0)
      let following ← pyGetD data "following" (.num 0)
      let location ← pyGetD data "location" (.str "N/A")
      let company ← pyGetD data "company" (.str "N/A")
      let blog ← pyGetD data "blog" (.str "N/A")
      let created ← pyGetD data "created_at" (.str "N/A")
      return "\nUsername: " ++ pyStr login ++ "\nName: " ++ pyStr name ++ "\nBio: " ++ pyStr bio ++ "\nPublic Repos: " ++ pyStr publicRepos ++ "\nFollowers: " ++ pyStr followers ++ "\nFollowing: " ++ pyStr following ++ "\nLocation: " ++ pyStr location ++ "\nCompany: " ++ pyStr company ++ "\nBlog: " ++ pyStr blog ++ "\nCreated: " ++ pyStr created ++ "\n"

/-- Body of the `for repo in data` loop of `get_github_repos`
(lines 154-162). -/
def repoEntry (repo : Json) : Except PyErr String := do
  let name ← pyGetD repo "name" (.str "N/A")
  let description ← pyGetD repo "description" (.str "No description")
  let language ← pyGetD repo "language" (.str "N/A")
  let stars ← pyGetD repo "stargazers_count" (.num 0)
  let forks ← pyGetD repo "forks_count" (.num 0)
  let updated ← pyGetD repo "updated_at" (.str "N/A")
  let url ← pyGetD repo "html_url" (.str "N/A")
  return "\nName: " ++ pyStr name ++ "\nDescription: " ++ pyStr description ++ "\nLanguage: " ++ pyStr language ++ "\nStars: " ++ pyStr stars ++ "\nForks: " ++ pyStr forks ++ "\nUpdated: " ++ pyStr updated ++ "\nURL: " ++ pyStr url ++ "\n"

/-- The `repos` list built by `get_github_repos` (lines 152-163): the loop
iterates over the whole upstream response, without local truncation. -/
def reposEntriesOf (data : Json) : Except PyErr (List String) := do
  let items ← pyIter data
  mapE repoEntry items

/-- `get_github_repos` (lines 144-164). -/
def get_github_repos (username : String) (limit : Int) (respond : String → Option Json) : Except PyErr String :=
  match respond (get_github_repos_url username limit) with
  | none => .ok ("Unable to fetch repositories for " ++ username)
  | some data =>
    if !truthy data then .ok ("Unable to fetch repositories for " ++ username) else do
      let repos ← reposEntriesOf data
      return String.intercalate "\n---\n" repos

/-- `get_github_repo_info` (lines 166-188). -/
def get_github_repo_info (owner repo : String) (respond : String → Option Json) : Except PyErr String :=
  match respond (get_github_repo_info_url owner repo) with
  | none => .ok ("Unable to fetch repository information for " ++ owner ++ "/" ++ repo)
  | some data =>
    if !truthy data then .ok ("Unable to fetch repository information for " ++ owner ++ "/" ++ repo) else do
      let fullName ← pyGetD data "full_name" (.str "N/A")
      let description ← pyGetD data "description" (.str "No description")
      let language ← pyGetD data "language" (.str "N/A")
      let stars ← pyGetD data "stargazers_count" (.num 0)
      let forks ← pyGetD data "forks_count" (.num 0)
      let watchers ← pyGetD data "watchers_count" (.num 0)
      let openIssues ← pyGetD data "open_issues_count" (.num 0)
      let size ← pyGetD data "size" (.num 0)
      let defaultBranch ← pyGetD data "default_branch" (.str "N/A")
      let created ← pyGetD data "created_at" (.str "N/A")
      let updated ← pyGetD data "updated_at" (.str "N/A")
      let licCheck ← pyGet1 data "license"
      let license ← if truthy licCheck then do
          let lic ← pyGetD data "license" (.obj [])
          let nm ← pyGetD lic "name" (.str "N/A")
          pure (pyStr nm)
        else pure "N/A"
      let url ← pyGetD data "html_url" (.str "N/A")
      let cloneUrl ← pyGetD data "clone_url" (.str "N/A")
      return "\nRepository: " ++ pyStr fullName ++ "\nDescription: " ++ pyStr description ++ "\nLanguage: " ++ pyStr language ++ "\nStars: " ++ pyStr stars ++ "\nForks: " ++ pyStr forks ++ "\nWatchers: " ++ pyStr watchers ++ "\nOpen Issues: " ++ pyStr openIssues ++ "\nSize: " ++ pyStr size ++ " KB\nDefault Branch: " ++ pyStr defaultBranch ++ "\nCreated: " ++ pyStr created ++ "\nUpdated: " ++ pyStr updated ++ "\nLicense: " ++ license ++ "\nURL: " ++ pyStr url ++ "\nClone URL: " ++ pyStr cloneUrl ++ "\n"

/-- Body of the `for repo in data['items']` loop of `search_github_repos`
(lines 200-207). -/
def searchEntry (repo : Json) : Except PyErr String := do
  let fullName ← pyGetD repo "full_name" (.str "N/A")
  let description ← pyGetD repo "description" (.str "No description")
  let language ← pyGetD repo "language" (.str "N/A")
  let stars ← pyGetD repo "stargazers_count" (.num 0)
  let forks ← pyGetD repo "forks_count" (.num 0)
  let url ← pyGetD repo "html_url" (.str "N/A")
  return "\nName: " ++ pyStr fullName ++ "\nDescription: " ++ pyStr description ++ "\nLanguage: " ++ pyStr language ++ "\nStars: " ++ pyStr stars ++ "\nForks: " ++ pyStr forks ++ "\nURL: " ++ pyStr url ++ "\n"

/-- The `repos` list built by `search_github_repos` (lines 198-208) from the
`data['items']` value: the loop iterates over all returned items. -/
def searchEntriesOf (items : Json) : Except PyErr (List String) := do
  let xs ← pyIter items
  mapE searchEntry xs

/-- `search_github_repos` (lines 190-209). -/
def search_github_repos (query : String) (limit : Int) (respond : String → Option Json) : Except PyErr String :=
  match respond (search_github_repos_url query limit) with
  | none => .ok ("Unable to search repositories for query: " ++ query)
  | some data =>
    if !truthy data then .ok ("Unable to search repositories for query: " ++ query) else do
      let mem ← pyInStr "items" data
      if !mem then return "Unable to search repositories for query: " ++ query else do
        let items ← pyIndex data "items"
        let repos ← searchEntriesOf items
        return String.intercalate "\n---\n" repos

/-- Body of the `for issue in data` loop of `get_github_issues`
(lines 222-232), including the label join. -/
def issueEntry (issue : Json) : Except PyErr String := do
  let labelsVal ← pyGetD issue "labels" (.arr [])
  let labelItems ← pyIter labelsVal
  let labelNames ← mapE (fun l => pyIndex l "name") labelItems
  let labelStrs ← mapE pyAsStr labelNames
  let labels := String.intercalate ", " labelStrs
  let number ← pyGetD issue "number" (.str "N/A")
  let title ← pyGetD issue "title" (.str "No title")
  let state ← pyGetD issue "state" (.str "N/A")
  let user ← pyGetD issue "user" (.obj [])
  let author ← pyGetD user "login" (.str "N/A")
  let created ← pyGetD issue "created_at" (.str "N/A")
  let url ← pyGetD issue "html_url" (.str "N/A")
  return "\n#" ++ pyStr number ++ ": " ++ pyStr title ++ "\nState: " ++ pyStr state ++ "\nAuthor: " ++ pyStr author ++ "\nLabels: " ++ (if !labels.isEmpty then labels else "None") ++ "\nCreated: " ++ pyStr created ++ "\nURL: " ++ pyStr url ++ "\n"

/-- The `issues` list built by `get_github_issues` (lines 221-232): the loop
iterates over the whole upstream response. -/
def issuesEntriesOf (data : Json) : Except PyErr (List String) := do
  let items ← pyIter data
  mapE issueEntry items

/-- `get_github_issues` (lines 211-233). -/
def get_github_issues (owner repo state : String) (limit : Int) (respond : String → Option Json) : Except PyErr String :=
  match respond (get_github_issues_url owner repo state limit) with
  | none => .ok ("Unable to fetch issues for " ++ owner ++ "/" ++ repo)
  | some data =>
    if !truthy data then .ok ("Unable to fetch issues for " ++ owner ++ "/" ++ repo) else do
      let issues ← issuesEntriesOf data
      return String.intercalate "\n---\n" issues

/-- Body of the `for commit in data` loop of `get_github_commits`
(lines 244-252): SHA sliced to 8 chars, message sliced to 100 chars with a
conditional `'...'`. -/
def commitEntry (commit : Json) : Except PyErr String := do
  let sha ← pyGetD commit "sha" (.str "N/A")
  let shaShort ← pySliceTake 8 sha
  let c1 ← pyGetD commit "commit" (.obj [])
  let message ← pyGetD c1 "message" (.str "No message")
  let messageShort ← pySliceTake 100 message
  let c2 ← pyGetD commit "commit" (.obj [])
  let message2 ← pyGetD c2 "message" (.str "")
  let messageLen ← pyLen message2
  let c3 ← pyGetD commit "commit" (.obj [])
  let author ← pyGetD c3 "author" (.obj [])
  let authorName ← pyGetD author "name" (.str "N/A")
  let c4 ← pyGetD commit "commit" (.obj [])
  let author2 ← pyGetD c4 "author" (.obj [])
  let date ← pyGetD author2 "date" (.str "N/A")
  let url ← pyGetD commit "html_url" (.str "N/A")
  return "\nSHA: " ++ pyStr shaShort ++ "\nMessage: " ++ pyStr messageShort ++ (if 100 < messageLen then "..." else "") ++ "\nAuthor: " ++ pyStr authorName ++ "\nDate: " ++ pyStr date ++ "\nURL: " ++ pyStr url ++ "\n"

/-- The `commits` list built by `get_github_commits` (lines 243-252): the
loop iterates over the whole upstream response. -/
def commitsEntriesOf (data : Json) : Except PyErr (List String) := do
  let items ← pyIter data
  mapE commitEntry items

/-- `get_github_commits` (lines 235-253). -/
def get_github_commits (owner repo : String) (limit : Int) (respond : String → Option Json) : Except PyErr String :=
  match respond (get_github_commits_url owner repo limit) with
  | none => .ok ("Unable to fetch commits for " ++ owner ++ "/" ++ repo)
  | some data =>
    if !truthy data then .ok ("Unable to fetch commits for " ++ owner ++ "/" ++ repo) else do
      let commits ← commitsEntriesOf data
      return String.intercalate "\n---\n" commits

/-- Body of the `for station in stations[:5]` loop of `station_name_to_code`
(lines 274-277). -/
def stationEntry (station : Json) : Except PyErr String := do
  let name ← pyGetD station "StationName" (.str "N/A")
  let code ← pyGetD station "StationCode" (.str "N/A")
  let state ← pyGetD station "StateName" (.str "N/A")
  return "Name: " ++ pyStr name ++ "\nCode: " ++ pyStr code ++ "\nState: " ++ pyStr state ++ "\n---\n"

/-- The station blocks appended by `station_name_to_code` (lines 273-277):
only the first 5 stations are rendered. -/
def stationEntries (stations : List Json) : Except PyErr (List String) :=
  mapE stationEntry (stations.take 5)

/-- Rendering part of `station_name_to_code` (lines 267-282), applied to the
`fetch_data` result; `station_name` has already been uppercased. -/
def station_render (station_name : String) (data : Json) : Except PyErr String := do
  let hasError ← pyInStr "error" data
  if hasError then do
    let e ← pyIndex data "error"
    return "Error fetching station code: " ++ pyStr e
  else do
    let rc ← pyGet1 data "ResponseCode"
    let stationVal ← pyGet1 data "Station"
    if jsonEqNum rc 200 && truthy stationVal then do
      let stations ← pyIndex data "Station"
      match stations with
      | .arr xs =>
        if !xs.isEmpty then do
          let es ← stationEntries xs
          return "Station codes found:\n" ++ String.join es
        else return "No stations found for '" ++ station_name ++ "'"
      | _ => return "No stations found for '" ++ station_name ++ "'"
    else return "No stations found for '" ++ station_name ++ "'"

/-- `station_name_to_code` (lines 257-282).  The second component is the
list of URLs requested. -/
def station_name_to_code (key : Option String) (station_name : String) (respond : String → Json) : Except PyErr String × List String :=
  if !keyTruthy key then (.ok "Indian Rail API key not configured", [])
  else
    let station_name := pyUpper station_name
    let url := station_name_to_code_url (key.getD "") station_name
    (station_render station_name (respond url), [url])

/-- Body of the `for station in route[:10]` loop of
`get_train_schedule_indian_rail` (lines 304-307). -/
def routeEntry (station : Json) : Except PyErr String := do
  let name ← pyGetD station "StationName" (.str "N/A")
  let code ← pyGetD station "StationCode" (.str "N/A")
  let arrival ← pyGetD station "ArrivalTime" (.str "N/A")
  let departure ← pyGetD station "DepartureTime" (.str "N/A")
  let distance ← pyGetD station "DistanceFromSource" (.str "N/A")
  return "Station: " ++ pyStr name ++ " (" ++ pyStr code ++ ")\nArrival: " ++ pyStr arrival ++ " | Departure: " ++ pyStr departure ++ "\nDistance: " ++ pyStr distance ++ " km\n---\n"

/-- The schedule blocks appended by `get_train_schedule_indian_rail`
(lines 303-307): only the first 10 route stops are rendered. -/
def routeEntries (route : List Json) : Except PyErr (List String) :=
  mapE routeEntry (route.take 10)

/-- Rendering part of `get_train_schedule_indian_rail` (lines 293-310). -/
def train_schedule_render (train_number : String) (data : Json) : Except PyErr String := do
  let hasError ← pyInStr "error" data
  if hasError then do
    let e ← pyIndex data "error"
    return "Error fetching train schedule: " ++ pyStr e
  else do
    let rc ← pyGet1 data "ResponseCode"
    let routeVal ← pyGet1 data "Route"
    if jsonEqNum rc 200 && truthy routeVal then do
      let trainName ← pyGetD data "TrainName" (.str "N/A")
      let trainNumber ← pyGetD data "TrainNumber" (.str "N/A")
      let header := "Train " ++ train_number ++ " Schedule:\n" ++ "Train Name: " ++ pyStr trainName ++ "\n" ++ "Train Number: " ++ pyStr trainNumber ++ "\n\n"
      let route ← pyIndex data "Route"
      match route with
      | .arr xs => do
        let es ← routeEntries xs
        return header ++ "Schedule:\n" ++ String.join es
      | _ => return header
    else return "No schedule found for train " ++ train_number

/-- `get_train_schedule_indian_rail` (lines 284-310).  The train number is
embedded without case normalization. -/
def get_train_schedule_indian_rail (key : Option String) (train_number : String) (respond : String → Json) : Except PyErr String × List String :=
  if !keyTruthy key then (.ok "Indian Rail API key not configured", [])
  else
    let url := get_train_schedule_url (key.getD "") train_number
    (train_schedule_render train_number (respond url), [url])

/-- Body of the `for train in trains[:15]` loop of
`get_all_trains_on_station` (lines 329-332). -/
def trainEntry (train : Json) : Except PyErr String := do
  let name ← pyGetD train "TrainName" (.str "N/A")
  let number ← pyGetD train "TrainNumber" (.str "N/A")
  let arrival ← pyGetD train "ArrivalTime" (.str "N/A")
  let departure ← pyGetD train "DepartureTime" (.str "N/A")
  let source ← pyGetD train "SourceStationName" (.str "N/A")
  let destination ← pyGetD train "DestinationStationName" (.str "N/A")
  return "Train: " ++ pyStr name ++ " (" ++ pyStr number ++ ")\nArrival: " ++ pyStr arrival ++ " | Departure: " ++ pyStr departure ++ "\nSource: " ++ pyStr source ++ " | Destination: " ++ pyStr destination ++ "\n---\n"

/-- The train blocks appended by `get_all_trains_on_station`
(lines 328-332): `trains[:15]` is sliced without an `isinstance` check, then
iterated. -/
def trainEntriesOf (trains : Json) : Except PyErr (List String) := do
  let sliced ← pySliceTake 15 trains
  let items ← pyIter sliced
  mapE trainEntry items

/-- Rendering part of `get_all_trains_on_station` (lines 322-337);
`station_code` has already been uppercased. -/
def all_trains_render (station_code : String) (data : Json) : Except PyErr String := do
  let hasError ← pyInStr "error" data
  if hasError then do
    let e ← pyIndex data "error"
    return "Error fetching trains for station: " ++ pyStr e
  else do
    let rc ← pyGet1 data "ResponseCode"
    let trainsVal ← pyGet1 data "Trains"
    if jsonEqNum rc 200 && truthy trainsVal then do
      let trains ← pyIndex data "Trains"
      if truthy trains then do
        let es ← trainEntriesOf trains
        return "Trains at station " ++ station_code ++ ":\n" ++ String.join es
      else return "No trains found for station " ++ station_code
    else return "No trains found for station " ++ station_code

/-- `get_all_trains_on_station` (lines 312-337). -/
def get_all_trains_on_station (key : Option String) (station_code : String) (respond : String → Json) : Except PyErr String × List String :=
  if !keyTruthy key then (.ok "Indian Rail API key not configured", [])
  else
    let station_code := pyUpper station_code
    let url := get_all_trains_url (key.getD "") station_code
    (all_trains_render station_code (respond url), [url])

/-- Reduction of `Except` bind on a success value. -/
@[simp] theorem bindE_ok {α β : Type} (x : α) (k : α → Except PyErr β) :
    (Except.ok x >>= k) = k x := rfl

/-- Reduction of `Except` bind on an error value. -/
@[simp] theorem bindE_error {α β : Type} (e : PyErr) (k : α → Except PyErr β) :
    ((Except.error e : Except PyErr α) >>= k) = .error e := rfl

/-- `pure` into `Except` is `Except.ok`. -/
@[simp] theorem pureE {α : Type} (x : α) : (pure x : Except PyErr α) = .ok x := rfl

/-- A successful `mapE` run yields one output per input. -/
theorem mapE_ok_length {α β : Type} (f : α → Except PyErr β) :
    ∀ xs ys, mapE f xs = .ok ys → ys.length = xs.length := by
  intro xs
  induction xs with
  | nil =>
    intro ys h
    simp [mapE] at h
    subst h
    rfl
  | cons x xs ih =>
    intro ys h
    rw [mapE] at h
    cases hfx : f x with
    | error e =>
      rw [hfx] at h
      simp at h
    | ok y =>
      rw [hfx] at h
      cases hm : mapE f xs with
      | error e =>
        rw [hm] at h
        simp at h
      | ok ys2 =>
        rw [hm] at h
        simp at h
        subst h
        simp [ih ys2 hm]

/-- `mapE` succeeds when the body succeeds on every element. -/
theorem mapE_ok_of_all {α β : Type} (f : α → Except PyErr β) :
    ∀ xs, (∀ x ∈ xs, ∃ y, f x = .ok y) → ∃ ys, mapE f xs = .ok ys := by
  intro xs
  induction xs with
  | nil => exact fun _ => ⟨[], rfl⟩
  | cons x xs ih =>
    intro h
    obtain ⟨y, hy⟩ := h x (List.mem_cons_self x xs)
    obtain ⟨ys, hys⟩ := ih (fun a ha => h a (List.mem_cons_of_mem x ha))
    refine ⟨y :: ys, ?_⟩
    rw [mapE, hy, hys]
    rfl

/-- `Char.ofNat` of a valid codepoint round-trips through `toNat`. -/
theorem char_toNat_ofNat {n : Nat} (h : n.isValidChar) : (Char.ofNat n).toNat = n := by
  simp [Char.ofNat, h, Char.ofNatAux, Char.toNat, UInt32.toNat, BitVec.ofNatLt]

/-- Uppercasing after lowercasing is plain uppercasing, per character. -/
theorem char_up_low (c : Char) : Char.toUpper (Char.toLower c) = Char.toUpper c := by
  simp only [Char.toLower, Char.toUpper]
  by_cases h : c.toNat ≥ 65 ∧ c.toNat ≤ 90
  · rw [if_pos h]
    have hv : (c.toNat + 32).isValidChar := by
      constructor
      omega
    rw [char_toNat_ofNat hv]
    rw [if_pos (by omega), if_neg (by omega)]
    have harg : c.toNat + 32 - 32 = c.toNat := by omega
    rw [harg, Char.ofNat_toNat]
  · rw [if_neg h]

/-- Uppercasing is idempotent, per character. -/
theorem char_up_up (c : Char) : Char.toUpper (Char.toUpper c) = Char.toUpper c := by
  simp only [Char.toUpper]
  by_cases h : c.toNat ≥ 97 ∧ c.toNat ≤ 122
  · rw [if_pos h]
    have hv : (c.toNat - 32).isValidChar := by
      constructor
      omega
    rw [char_toNat_ofNat hv]
    rw [if_neg (by omega)]
  · rw [if_neg h, if_neg h]

/-- `pyUpper` after `pyLower` is plain `pyUpper`. -/
theorem pyUpper_pyLower (s : String) : pyUpper (pyLower s) = pyUpper s := by
  have hl : ∀ l : List Char, (l.map Char.toLower).map Char.toUpper = l.map Char.toUpper := by
    intro l
    induction l with
    | nil => rfl
    | cons c cs ih => simp [ih, char_up_low c]
  simp only [pyUpper, pyLower]
  rw [hl s.data]

/-- `pyUpper` is idempotent. -/
theorem pyUpper_pyUpper (s : String) : pyUpper (pyUpper s) = pyUpper s := by
  have hl : ∀ l : List Char, (l.map Char.toUpper).map Char.toUpper = l.map Char.toUpper := by
    intro l
    induction l with
    | nil => rfl
    | cons c cs ih => simp [ih, char_up_up c]
  simp only [pyUpper]
  rw [hl s.data]

/-- A key bound in a field list means the list is nonempty. -/
theorem getKey?_ne_nil {fields : List (String × Json)} {k : String} {v : Json}
    (h : getKey? fields k = some v) : fields.isEmpty = false := by
  cases fields with
  | nil => simp [getKey?] at h
  | cons a rest => rfl

/-- A key bound in a field list is found by the membership scan of
`"k" in d`. -/
theorem getKey?_any {fields : List (String × Json)} {k : String} {v : Json}
    (h : getKey? fields k = some v) : fields.any (fun kv => kv.1 == k) = true := by
  induction fields with
  | nil => simp [getKey?] at h
  | cons a rest ih =>
    rw [getKey?] at h
    by_cases hk : a.1 == k
    · simp [List.any_cons, hk]
    · rw [if_neg hk] at h
      simp [List.any_cons, ih h]

/-- C5: for every requested limit, the per-page value placed in the upstream
query URL is `min(limit, cap)` with cap 50 for `get_github_repos`, 30 for
`search_github_repos` and `get_github_issues`, 20 for `get_github_commits`;
in particular `get_github_repos("octocat", limit=100)` requests
`per_page=50`, and the placed value never exceeds the cap. -/
theorem claim_C5 :
    (∀ (u : String) (L : Int), get_github_repos_url u L =
      GITHUB_API_BASE ++ "/users/" ++ u ++ "/repos?sort=updated&per_page=" ++ toString (min L 50)) ∧
    (get_github_repos_url "octocat" 100 =
      "https://api.github.com/users/octocat/repos?sort=updated&per_page=50") ∧
    (∀ (q : String) (L : Int), search_github_repos_url q L =
      GITHUB_API_BASE ++ "/search/repositories?q=" ++ q ++ "&sort=stars&order=desc&per_page=" ++ toString (min L 30)) ∧
    (∀ (o r s : String) (L : Int), get_github_issues_url o r s L =
      GITHUB_API_BASE ++ "/repos/" ++ o ++ "/" ++ r ++ "/issues?state=" ++
        (if ["open", "closed", "all"].contains s then s else "open") ++ "&per_page=" ++ toString (min L 30)) ∧
    (∀ (o r : String) (L : Int), get_github_commits_url o r L =
      GITHUB_API_BASE ++ "/repos/" ++ o ++ "/" ++ r ++ "/commits?per_page=" ++ toString (min L 20)) ∧
    (∀ L : Int, min L 50 ≤ 50 ∧ min L 30 ≤ 30 ∧ min L 20 ≤ 20) := by
  refine ⟨fun u L => rfl, by decide, fun q L => rfl, fun o r s L => rfl, fun o r L => rfl, ?_⟩
  intro L
  exact ⟨min_le_right L 50, min_le_right L 30, min_le_right L 20⟩

/-- C6: with the rail credential unset, each of the three Indian Rail
operations returns exactly "Indian Rail API key not configured" and issues
no upstream request, for every input. -/
theorem claim_C6 :
    ∀ (s : String) (respond : String → Json),
      station_name_to_code none s respond = (.ok "Indian Rail API key not configured", []) ∧
      get_train_schedule_indian_rail none s respond = (.ok "Indian Rail API key not configured", []) ∧
      get_all_trains_on_station none s respond = (.ok "Indian Rail API key not configured", []) :=
  fun _ _ => ⟨rfl, rfl, rfl⟩

/-- C8: when the upstream response to `get_alerts("CA")` is any JSON
object whose `features` key maps to an empty list, the result is exactly
"No active alerts for this state.". -/
theorem claim_C8 :
    ∀ (respond : String → Option Json) (kvs : List (String × Json)),
      respond (get_alerts_url "CA") = some (.obj kvs) →
      getKey? kvs "features" = some (.arr []) →
      get_alerts "CA" respond = .ok "No active alerts for this state." := by
  intro respond kvs h1 h2
  rw [get_alerts, h1]
  have hne : kvs.isEmpty = false := getKey?_ne_nil h2
  have hany : kvs.any (fun kv => kv.1 == "features") = true := getKey?_any h2
  simp [truthy, hne, pyInStr, hany, pyIndex, h2]

/-- Witness for C8 at a concrete responder whose zero-feature response
carries additional fields. -/
theorem claim_C8_witness :
    get_alerts "CA" (fun _ => some (.obj [("title", .str "current watches"), ("features", .arr []), ("updated", .str "2024")])) =
      .ok "No active alerts for this state." :=
  claim_C8 (fun _ => some (.obj [("title", .str "current watches"), ("features", .arr []), ("updated", .str "2024")]))
    [("title", .str "current watches"), ("features", .arr []), ("updated", .str "2024")] rfl rfl

/-- C7: an unrecognized issue-state filter behaves exactly like the default
"open": the same upstream URL is requested and the same text returned. -/
theorem claim_C7 :
    ∀ (owner repo state : String) (L : Int),
      state ∉ (["open", "closed", "all"] : List String) →
      get_github_issues_url owner repo state L = get_github_issues_url owner repo "open" L ∧
      ∀ respond : String → Option Json,
        get_github_issues owner repo state L respond =
          get_github_issues owner repo "open" L respond := by
  intro owner repo state L h
  have hc : (["open", "closed", "all"] : List String).contains state = false := by
    simpa [List.contains, List.elem_eq_mem] using h
  have hurl : get_github_issues_url owner repo state L = get_github_issues_url owner repo "open" L := by
    simp only [get_github_issues_url]
    rw [hc]
    simp [List.contains]
  exact ⟨hurl, fun respond => by rw [get_github_issues, get_github_issues, hurl]⟩

/-- Witness for C7 at the unrecognized state "wip". -/
theorem claim_C7_witness :
    get_github_issues_url "octo" "repo" "wip" 10 = get_github_issues_url "octo" "repo" "open" 10 ∧
    get_github_issues "octo" "repo" "wip" 10 (fun _ => none) =
      get_github_issues "octo" "repo" "open" 10 (fun _ => none) :=
  ⟨(claim_C7 "octo" "repo" "wip" 10 (by decide)).1,
   (claim_C7 "octo" "repo" "wip" 10 (by decide)).2 (fun _ => none)⟩

/-- C1 fails as stated: with limit 1 (so min(L, cap) = 1),
`get_github_repos` renders one entry for each of the 2 items the upstream
returned, because the loop never truncates to the limit. -/
theorem claim_C1_counterexample :
    reposEntriesOf (.arr [.obj [], .obj []]) =
      .ok ["\nName: N/A\nDescription: No description\nLanguage: N/A\nStars: 0\nForks: 0\nUpdated: N/A\nURL: N/A\n",
           "\nName: N/A\nDescription: No description\nLanguage: N/A\nStars: 0\nForks: 0\nUpdated: N/A\nURL: N/A\n"] ∧
    get_github_repos "octocat" 1 (fun _ => some (.arr [.obj [], .obj []])) =
      .ok ("\nName: N/A\nDescription: No description\nLanguage: N/A\nStars: 0\nForks: 0\nUpdated: N/A\nURL: N/A\n\n---\n\nName: N/A\nDescription: No description\nLanguage: N/A\nStars: 0\nForks: 0\nUpdated: N/A\nURL: N/A\n") ∧
    min (1 : Int) 50 < 2 :=
  ⟨rfl, rfl, by decide⟩

/-- C1 amended: each list-returning operation renders exactly one entry per
item the upstream actually returned (so the rendered count never exceeds
the upstream count); it stays within min(L, cap) only when the upstream
itself returns at most min(L, cap) items. -/
theorem claim_C1 :
    (∀ (items : List Json) (es : List String),
      reposEntriesOf (.arr items) = .ok es → es.length = items.length) ∧
    (∀ (items : List Json) (es : List String),
      searchEntriesOf (.arr items) = .ok es → es.length = items.length) ∧
    (∀ (items : List Json) (es : List String),
      issuesEntriesOf (.arr items) = .ok es → es.length = items.length) ∧
    (∀ (items : List Json) (es : List String),
      commitsEntriesOf (.arr items) = .ok es → es.length = items.length) ∧
    (∀ (L : Int) (items : List Json) (es : List String),
      reposEntriesOf (.arr items) = .ok es →
      (items.length : Int) ≤ min L 50 → (es.length : Int) ≤ min L 50) := by
  refine ⟨?_, ?_, ?_, ?_, ?_⟩
  · intro items es h
    simp only [reposEntriesOf, pyIter, bindE_ok] at h
    exact mapE_ok_length repoEntry items es h
  · intro items es h
    simp only [searchEntriesOf, pyIter, bindE_ok] at h
    exact mapE_ok_length searchEntry items es h
  · intro items es h
    simp only [issuesEntriesOf, pyIter, bindE_ok] at h
    exact mapE_ok_length issueEntry items es h
  · intro items es h
    simp only [commitsEntriesOf, pyIter, bindE_ok] at h
    exact mapE_ok_length commitEntry items es h
  · intro L items es h hle
    simp only [reposEntriesOf, pyIter, bindE_ok] at h
    rw [mapE_ok_length repoEntry items es h]
    exact hle

/-- Witness for C1 (amended) at concrete inputs. -/
theorem claim_C1_witness :
    ((["\nName: N/A\nDescription: No description\nLanguage: N/A\nStars: 0\nForks: 0\nUpdated: N/A\nURL: N/A\n"] : List String).length
      = ([Json.obj []] : List Json).length) ∧
    (((["\nName: N/A\nDescription: No description\nLanguage: N/A\nStars: 0\nForks: 0\nUpdated: N/A\nURL: N/A\n",
        "\nName: N/A\nDescription: No description\nLanguage: N/A\nStars: 0\nForks: 0\nUpdated: N/A\nURL: N/A\n"] : List String).length : Int)
      ≤ min 10 50) :=
  ⟨claim_C1.1 [Json.obj []] _ rfl,
   claim_C1.2.2.2.2 10 [Json.obj [], Json.obj []] _ rfl (by decide)⟩

/-- C3 fails as stated for `get_alerts`: the state is embedded in the
upstream URL without case normalization, so the lowercase variant requests
a different URL than the uppercase variant. -/
theorem claim_C3_counterexample : get_alerts_url "ca" ≠ get_alerts_url "CA" := by
  decide

/-- C3 amended: `station_name_to_code` and `get_all_trains_on_station`
uppercase their station input before building the URL, so the lowercase and
uppercase variants of an input produce identical behaviour (same requested
URL and same text); `get_alerts`, however, embeds its state verbatim. -/
theorem claim_C3 :
    ∀ (key : Option String) (s : String) (respond : String → Json),
      station_name_to_code key (pyLower s) respond = station_name_to_code key (pyUpper s) respond ∧
      get_all_trains_on_station key (pyLower s) respond = get_all_trains_on_station key (pyUpper s) respond := by
  intro key s respond
  constructor
  · rw [station_name_to_code, station_name_to_code, pyUpper_pyLower, pyUpper_pyUpper]
  · rw [get_all_trains_on_station, get_all_trains_on_station, pyUpper_pyLower, pyUpper_pyUpper]

/-- C4: when the upstream client returns its absent-data sentinel (`None`
from the NWS/GitHub helpers, `{"error": ...}` from `fetch_data`), every
catalog operation returns its documented fixed failure string and never
raises. -/
theorem claim_C4 :
    (∀ (state : String) (respond : String → Option Json),
      respond (get_alerts_url state) = none →
      get_alerts state respond = .ok "Unable to fetch alerts or no alerts found.") ∧
    (∀ (la lo : String) (respond : String → Option Json),
      respond (get_forecast_points_url la lo) = none →
      get_forecast la lo respond = .ok "Unable to fetch forecast data for this location.") ∧
    (∀ (u : String) (respond : String → Option Json),
      respond (get_github_user_url u) = none →
      get_github_user u respond = .ok ("Unable to fetch user information for " ++ u)) ∧
    (∀ (u : String) (L : Int) (respond : String → Option Json),
      respond (get_github_repos_url u L) = none →
      get_github_repos u L respond = .ok ("Unable to fetch repositories for " ++ u)) ∧
    (∀ (o r : String) (respond : String → Option Json),
      respond (get_github_repo_info_url o r) = none →
      get_github_repo_info o r respond = .ok ("Unable to fetch repository information for " ++ o ++ "/" ++ r)) ∧
    (∀ (q : String) (L : Int) (respond : String → Option Json),
      respond (search_github_repos_url q L) = none →
      search_github_repos q L respond = .ok ("Unable to search repositories for query: " ++ q)) ∧
    (∀ (o r s : String) (L : Int) (respond : String → Option Json),
      respond (get_github_issues_url o r s L) = none →
      get_github_issues o r s L respond = .ok ("Unable to fetch issues for " ++ o ++ "/" ++ r)) ∧
    (∀ (o r : String) (L : Int) (respond : String → Option Json),
      respond (get_github_commits_url o r L) = none →
      get_github_commits o r L respond = .ok ("Unable to fetch commits for " ++ o ++ "/" ++ r)) ∧
    (∀ (key : Option String) (s e : String) (respond : String → Json),
      keyTruthy key = true →
      respond (station_name_to_code_url (key.getD "") (pyUpper s)) = .obj [("error", .str e)] →
      (station_name_to_code key s respond).1 = .ok ("Error fetching station code: " ++ e)) ∧
    (∀ (key : Option String) (t e : String) (respond : String → Json),
      keyTruthy key = true →
      respond (get_train_schedule_url (key.getD "") t) = .obj [("error", .str e)] →
      (get_train_schedule_indian_rail key t respond).1 = .ok ("Error fetching train schedule: " ++ e)) ∧
    (∀ (key : Option String) (s e : String) (respond : String → Json),
      keyTruthy key = true →
      respond (get_all_trains_url (key.getD "") (pyUpper s)) = .obj [("error", .str e)] →
      (get_all_trains_on_station key s respond).1 = .ok ("Error fetching trains for station: " ++ e)) := by
  refine ⟨?_, ?_, ?_, ?_, ?_, ?_, ?_, ?_, ?_, ?_, ?_⟩
  · intro state respond h
    rw [get_alerts, h]
  · intro la lo respond h
    rw [get_forecast, h]
  · intro u respond h
    rw [get_github_user, h]
  · intro u L respond h
    rw [get_github_repos, h]
  · intro o r respond h
    rw [get_github_repo_info, h]
  · intro q L respond h
    rw [search_github_repos, h]
  · intro o r s L respond h
    rw [get_github_issues, h]
  · intro o r L respond h
    rw [get_github_commits, h]
  · intro key s e respond hk hr
    simp only [station_name_to_code, hk, Bool.not_true, Bool.false_eq_true, if_false, hr]
    simp [station_render, pyInStr, pyIndex, getKey?, pyStr]
  · intro key t e respond hk hr
    simp only [get_train_schedule_indian_rail, hk, Bool.not_true, Bool.false_eq_true, if_false, hr]
    simp [train_schedule_render, pyInStr, pyIndex, getKey?, pyStr]
  · intro key s e respond hk hr
    simp only [get_all_trains_on_station, hk, Bool.not_true, Bool.false_eq_true, if_false, hr]
    simp [all_trains_render, pyInStr, pyIndex, getKey?, pyStr]

/-- Witness for C4: every conjunct applied at concrete inputs and concrete
sentinel-returning responders. -/
theorem claim_C4_witness :
    get_alerts "CA" (fun _ => none) = .ok "Unable to fetch alerts or no alerts found." ∧
    get_forecast "37.0" "-122.0" (fun _ => none) = .ok "Unable to fetch forecast data for this location." ∧
    get_github_user "octocat" (fun _ => none) = .ok "Unable to fetch user information for octocat" ∧
    get_github_repos "octocat" 10 (fun _ => none) = .ok "Unable to fetch repositories for octocat" ∧
    get_github_repo_info "octo" "repo" (fun _ => none) = .ok "Unable to fetch repository information for octo/repo" ∧
    search_github_repos "lean" 10 (fun _ => none) = .ok "Unable to search repositories for query: lean" ∧
    get_github_issues "octo" "repo" "open" 10 (fun _ => none) = .ok "Unable to fetch issues for octo/repo" ∧
    get_github_commits "octo" "repo" 10 (fun _ => none) = .ok "Unable to fetch commits for octo/repo" ∧
    (station_name_to_code (some "KEY") "delhi" (fun _ => .obj [("error", .str "boom")])).1 =
      .ok "Error fetching station code: boom" ∧
    (get_train_schedule_indian_rail (some "KEY") "12345" (fun _ => .obj [("error", .str "boom")])).1 =
      .ok "Error fetching train schedule: boom" ∧
    (get_all_trains_on_station (some "KEY") "ndls" (fun _ => .obj [("error", .str "boom")])).1 =
      .ok "Error fetching trains for station: boom" :=
  ⟨claim_C4.1 "CA" _ rfl,
   claim_C4.2.1 "37.0" "-122.0" _ rfl,
   claim_C4.2.2.1 "octocat" _ rfl,
   claim_C4.2.2.2.1 "octocat" 10 _ rfl,
   claim_C4.2.2.2.2.1 "octo" "repo" _ rfl,
   claim_C4.2.2.2.2.2.1 "lean" 10 _ rfl,
   claim_C4.2.2.2.2.2.2.1 "octo" "repo" "open" 10 _ rfl,
   claim_C4.2.2.2.2.2.2.2.1 "octo" "repo" 10 _ rfl,
   claim_C4.2.2.2.2.2.2.2.2.1 (some "KEY") "delhi" "boom" _ rfl rfl,
   claim_C4.2.2.2.2.2.2.2.2.2.1 (some "KEY") "12345" "boom" _ rfl rfl,
   claim_C4.2.2.2.2.2.2.2.2.2.2 (some "KEY") "ndls" "boom" _ rfl rfl⟩

/-- C10: the operations without a limit parameter truncate list-valued
upstream results at fixed counts: `get_forecast` renders the first 5
periods, `station_name_to_code` the first 5 stations,
`get_train_schedule_indian_rail` the first 10 route stops, and
`get_all_trains_on_station` the first 15 trains. -/
theorem claim_C10 :
    (∀ (ps : List Json) (es : List String),
      forecastEntriesOf (.arr ps) = .ok es → es.length = min ps.length 5) ∧
    (∀ (xs : List Json) (es : List String),
      stationEntries xs = .ok es → es.length = min xs.length 5) ∧
    (∀ (xs : List Json) (es : List String),
      routeEntries xs = .ok es → es.length = min xs.length 10) ∧
    (∀ (ts : List Json) (es : List String),
      trainEntriesOf (.arr ts) = .ok es → es.length = min ts.length 15) := by
  refine ⟨?_, ?_, ?_, ?_⟩
  · intro ps es h
    simp only [forecastEntriesOf, pySliceTake, pyIter, bindE_ok] at h
    have := mapE_ok_length forecastEntry (ps.take 5) es h
    rw [this, List.length_take]
    omega
  · intro xs es h
    rw [stationEntries] at h
    have := mapE_ok_length stationEntry (xs.take 5) es h
    rw [this, List.length_take]
    omega
  · intro xs es h
    rw [routeEntries] at h
    have := mapE_ok_length routeEntry (xs.take 10) es h
    rw [this, List.length_take]
    omega
  · intro ts es h
    simp only [trainEntriesOf, pySliceTake, pyIter, bindE_ok] at h
    have := mapE_ok_length trainEntry (ts.take 15) es h
    rw [this, List.length_take]
    omega

/-- Witness for C10 at concrete upstream lists: 7 stations render 5 blocks,
2 route stops render 2 blocks, 16 trains render 15 blocks, and an empty
period list renders 0 forecasts. -/
theorem claim_C10_witness :
    (([] : List String).length = min ([] : List Json).length 5) ∧
    ((List.replicate 5 "Name: N/A\nCode: N/A\nState: N/A\n---\n").length =
      min (List.replicate 7 (Json.obj [])).length 5) ∧
    ((List.replicate 2 "Station: N/A (N/A)\nArrival: N/A | Departure: N/A\nDistance: N/A km\n---\n").length =
      min (List.replicate 2 (Json.obj [])).length 10) ∧
    ((List.replicate 15 "Train: N/A (N/A)\nArrival: N/A | Departure: N/A\nSource: N/A | Destination: N/A\n---\n").length =
      min (List.replicate 16 (Json.obj [])).length 15) :=
  ⟨claim_C10.1 [] [] rfl,
   claim_C10.2.1 (List.replicate 7 (Json.obj [])) _ rfl,
   claim_C10.2.2.1 (List.replicate 2 (Json.obj [])) _ rfl,
   claim_C10.2.2.2 (List.replicate 16 (Json.obj [])) _ rfl⟩

/-- C2 fails as stated: a feature object without a "properties" key makes
`format_alert` raise a `KeyError` that escapes `get_alerts`. -/
theorem claim_C2_counterexample :
    get_alerts "CA" (fun _ => some (.obj [("features", .arr [.obj []])])) =
      .error (.keyError "properties") := rfl

/-- `format_alert` succeeds on a feature whose "properties" key holds an
object, producing the placeholder-defaulted alert block. -/
theorem format_alert_ok (fkvs pkvs : List (String × Json))
    (hp : getKey? fkvs "properties" = some (.obj pkvs)) :
    format_alert (.obj fkvs) =
      .ok ("\nEvent: " ++ pyStr ((getKey? pkvs "event").getD (.str "Unknown")) ++
        "\nArea: " ++ pyStr ((getKey? pkvs "areaDesc").getD (.str "Unknown")) ++
        "\nSeverity: " ++ pyStr ((getKey? pkvs "severity").getD (.str "Unknown")) ++
        "\nDescription: " ++ pyStr ((getKey? pkvs "description").getD (.str "No description available")) ++
        "\nInstructions: " ++ pyStr ((getKey? pkvs "instruction").getD (.str "No specific instructions provided")) ++
        "\n") := by
  simp [format_alert, pyIndex, hp, pyGetD]

/-- `forecastEntry` succeeds on a period object carrying its six directly
indexed keys. -/
theorem forecastEntry_ok (pkvs : List (String × Json)) (v1 v2 v3 v4 v5 v6 : Json)
    (h1 : getKey? pkvs "name" = some v1)
    (h2 : getKey? pkvs "temperature" = some v2)
    (h3 : getKey? pkvs "temperatureUnit" = some v3)
    (h4 : getKey? pkvs "windSpeed" = some v4)
    (h5 : getKey? pkvs "windDirection" = some v5)
    (h6 : getKey? pkvs "detailedForecast" = some v6) :
    forecastEntry (.obj pkvs) =
      .ok ("\n" ++ pyStr v1 ++ ":\nTemperature: " ++ pyStr v2 ++ "°" ++ pyStr v3 ++
        "\nWind: " ++ pyStr v4 ++ " " ++ pyStr v5 ++ "\nForecast: " ++ pyStr v6 ++ "\n") := by
  simp [forecastEntry, pyIndex, h1, h2, h3, h4, h5, h6]

/-- A successful result is some `.ok` text. -/
theorem isOkE_exists {α : Type} {e : Except PyErr α} (h : isOkE e = true) :
    ∃ t, e = .ok t := by
  cases e with
  | ok t => exact ⟨t, rfl⟩
  | error err => simp [isOkE] at h

/-- A key found by the membership scan of `"k" in d` is bound to a value. -/
theorem getKey?_of_any {fields : List (String × Json)} {k : String}
    (h : fields.any (fun kv => kv.1 == k) = true) : ∃ v, getKey? fields k = some v := by
  induction fields with
  | nil => simp at h
  | cons a rest ih =>
    simp only [List.any_cons, Bool.or_eq_true] at h
    rw [getKey?]
    by_cases hk : a.1 == k
    · exact ⟨a.2, by rw [if_pos hk]⟩
    · rcases h with h | h
      · exact absurd h hk
      · obtain ⟨v, hv⟩ := ih h
        exact ⟨v, by rw [if_neg hk, hv]⟩

/-- A truthy `d.get(k)` value means the key is present with a truthy value. -/
theorem truthy_getD_null {kvs : List (String × Json)} {k : String}
    (h : truthy ((getKey? kvs k).getD .null) = true) :
    ∃ v, getKey? kvs k = some v ∧ truthy v = true := by
  cases hk : getKey? kvs k with
  | none => rw [hk] at h; simp [truthy] at h
  | some v => rw [hk] at h; exact ⟨v, rfl, h⟩

/-- Closed form of `repoEntry` on any object: every field slot is filled
from the record or its literal placeholder. -/
theorem repoEntry_eq (kvs : List (String × Json)) :
    repoEntry (.obj kvs) =
      .ok ("\nName: " ++ pyStr ((getKey? kvs "name").getD (.str "N/A")) ++
        "\nDescription: " ++ pyStr ((getKey? kvs "description").getD (.str "No description")) ++
        "\nLanguage: " ++ pyStr ((getKey? kvs "language").getD (.str "N/A")) ++
        "\nStars: " ++ pyStr ((getKey? kvs "stargazers_count").getD (.num 0)) ++
        "\nForks: " ++ pyStr ((getKey? kvs "forks_count").getD (.num 0)) ++
        "\nUpdated: " ++ pyStr ((getKey? kvs "updated_at").getD (.str "N/A")) ++
        "\nURL: " ++ pyStr ((getKey? kvs "html_url").getD (.str "N/A")) ++ "\n") := by
  simp [repoEntry, pyGetD]

/-- Closed form of `searchEntry` on any object. -/
theorem searchEntry_eq (kvs : List (String × Json)) :
    searchEntry (.obj kvs) =
      .ok ("\nName: " ++ pyStr ((getKey? kvs "full_name").getD (.str "N/A")) ++
        "\nDescription: " ++ pyStr ((getKey? kvs "description").getD (.str "No description")) ++
        "\nLanguage: " ++ pyStr ((getKey? kvs "language").getD (.str "N/A")) ++
        "\nStars: " ++ pyStr ((getKey? kvs "stargazers_count").getD (.num 0)) ++
        "\nForks: " ++ pyStr ((getKey? kvs "forks_count").getD (.num 0)) ++
        "\nURL: " ++ pyStr ((getKey? kvs "html_url").getD (.str "N/A")) ++ "\n") := by
  simp [searchEntry, pyGetD]

/-- Closed form of `stationEntry` on any object. -/
theorem stationEntry_eq (kvs : List (String × Json)) :
    stationEntry (.obj kvs) =
      .ok ("Name: " ++ pyStr ((getKey? kvs "StationName").getD (.str "N/A")) ++
        "\nCode: " ++ pyStr ((getKey? kvs "StationCode").getD (.str "N/A")) ++
        "\nState: " ++ pyStr ((getKey? kvs "StateName").getD (.str "N/A")) ++ "\n---\n") := by
  simp [stationEntry, pyGetD]

/-- Closed form of `routeEntry` on any object. -/
theorem routeEntry_eq (kvs : List (String × Json)) :
    routeEntry (.obj kvs) =
      .ok ("Station: " ++ pyStr ((getKey? kvs "StationName").getD (.str "N/A")) ++
        " (" ++ pyStr ((getKey? kvs "StationCode").getD (.str "N/A")) ++
        ")\nArrival: " ++ pyStr ((getKey? kvs "ArrivalTime").getD (.str "N/A")) ++
        " | Departure: " ++ pyStr ((getKey? kvs "DepartureTime").getD (.str "N/A")) ++
        "\nDistance: " ++ pyStr ((getKey? kvs "DistanceFromSource").getD (.str "N/A")) ++
        " km\n---\n") := by
  simp [routeEntry, pyGetD]

/-- Closed form of `trainEntry` on any object. -/
theorem trainEntry_eq (kvs : List (String × Json)) :
    trainEntry (.obj kvs) =
      .ok ("Train: " ++ pyStr ((getKey? kvs "TrainName").getD (.str "N/A")) ++
        " (" ++ pyStr ((getKey? kvs "TrainNumber").getD (.str "N/A")) ++
        ")\nArrival: " ++ pyStr ((getKey? kvs "ArrivalTime").getD (.str "N/A")) ++
        " | Departure: " ++ pyStr ((getKey? kvs "DepartureTime").getD (.str "N/A")) ++
        "\nSource: " ++ pyStr ((getKey? kvs "SourceStationName").getD (.str "N/A")) ++
        " | Destination: " ++ pyStr ((getKey? kvs "DestinationStationName").getD (.str "N/A")) ++
        "\n---\n") := by
  simp [trainEntry, pyGetD]

/-- The label comprehension plus join of `get_github_issues` succeeds on a
list of label objects carrying string names. -/
theorem labelNames_ok :
    ∀ ls : List Json,
      (∀ l ∈ ls, ∃ lkvs nm, l = Json.obj lkvs ∧ getKey? lkvs "name" = some (.str nm)) →
      ∃ ss : List String, mapE (fun l => pyIndex l "name") ls = .ok (ss.map Json.str) ∧
        mapE pyAsStr (ss.map Json.str) = .ok ss := by
  intro ls
  induction ls with
  | nil => exact fun _ => ⟨[], rfl, rfl⟩
  | cons l ls ih =>
    intro h
    obtain ⟨lkvs, nm, heq, hnm⟩ := h l (List.mem_cons_self l ls)
    obtain ⟨ss, hs1, hs2⟩ := ih (fun a ha => h a (List.mem_cons_of_mem l ha))
    subst heq
    refine ⟨nm :: ss, ?_, ?_⟩
    · have hpi : pyIndex (Json.obj lkvs) "name" = .ok (.str nm) := by simp [pyIndex, hnm]
      simp [mapE, hpi, hs1]
    · have hpa : pyAsStr (Json.str nm) = .ok nm := rfl
      simp [mapE, hpa, hs2]

/-- `issueEntry` succeeds on an issue object whose labels (when present)
are a list of label objects with string names and whose user (when
present) is an object. -/
theorem issueEntry_ok (ikvs : List (String × Json))
    (hlab : getKey? ikvs "labels" = none ∨
      ∃ ls, getKey? ikvs "labels" = some (.arr ls) ∧
        ∀ l ∈ ls, ∃ lkvs nm, l = Json.obj lkvs ∧ getKey? lkvs "name" = some (.str nm))
    (huser : getKey? ikvs "user" = none ∨ ∃ ukvs, getKey? ikvs "user" = some (.obj ukvs)) :
    isOkE (issueEntry (.obj ikvs)) = true := by
  have hlab2 : ∃ ls, ((getKey? ikvs "labels").getD (.arr [])) = .arr ls ∧
      ∀ l ∈ ls, ∃ lkvs nm, l = Json.obj lkvs ∧ getKey? lkvs "name" = some (.str nm) := by
    rcases hlab with h | ⟨ls, h, hall⟩
    · exact ⟨[], by rw [h]; rfl, by intro l hl; exact absurd hl (List.not_mem_nil l)⟩
    · exact ⟨ls, by rw [h]; rfl, hall⟩
  obtain ⟨ls, hval, hall⟩ := hlab2
  obtain ⟨ss, hs1, hs2⟩ := labelNames_ok ls hall
  rcases huser with hu | ⟨ukvs, hu⟩ <;>
    simp [issueEntry, pyGetD, hval, pyIter, hs1, hs2, hu, isOkE]

/-- `commitEntry` succeeds on a commit object whose sliced fields are
strings or absent: sha absent-or-string, commit absent-or-an-object whose
message is absent-or-string and whose author is absent-or-object. -/
theorem commitEntry_ok (ckvs : List (String × Json))
    (hsha : getKey? ckvs "sha" = none ∨ ∃ s, getKey? ckvs "sha" = some (.str s))
    (hcm : getKey? ckvs "commit" = none ∨
      ∃ mkvs, getKey? ckvs "commit" = some (.obj mkvs) ∧
        (getKey? mkvs "message" = none ∨ ∃ m, getKey? mkvs "message" = some (.str m)) ∧
        (getKey? mkvs "author" = none ∨ ∃ akvs, getKey? mkvs "author" = some (.obj akvs))) :
    isOkE (commitEntry (.obj ckvs)) = true := by
  rcases hsha with h1 | ⟨s, h1⟩ <;>
    rcases hcm with h2 | ⟨mkvs, h2, h3 | ⟨m, h3⟩, h4 | ⟨akvs, h4⟩⟩ <;>
    simp [commitEntry, pyGetD, pySliceTake, pyLen, getKey?, isOkE, h1, h2, *]

/-- C2 amended: every one of the eleven catalog operations returns a single
text output whenever the upstream JSON is shaped as the code expects at the
places it indexes, slices or iterates directly — objects where `.get` or
`[...]` is applied, lists of objects where entries are rendered, and
string-or-absent sliced fields; fields beyond those may be arbitrary and
extra fields are allowed everywhere.  Outside those shapes a Python fault
(for example the `KeyError` of the counterexample) escapes the catalog
layer. -/
theorem claim_C2 :
    (∀ (state : String) (respond : String → Option Json)
        (kvs : List (String × Json)) (feats : List Json),
      respond (get_alerts_url state) = some (.obj kvs) →
      getKey? kvs "features" = some (.arr feats) →
      (∀ f ∈ feats, ∃ fkvs pkvs, f = Json.obj fkvs ∧ getKey? fkvs "properties" = some (.obj pkvs)) →
      isOkE (get_alerts state respond) = true) ∧
    (∀ (la lo : String) (respond : String → Option Json)
        (pkvs ppkvs : List (String × Json)) (fv : Json),
      respond (get_forecast_points_url la lo) = some (.obj pkvs) →
      getKey? pkvs "properties" = some (.obj ppkvs) →
      getKey? ppkvs "forecast" = some fv →
      (∀ (u : String) (v : Json), fv = .str u → respond u = some v →
        ∃ fkvs fpkvs ps, v = Json.obj fkvs ∧ getKey? fkvs "properties" = some (.obj fpkvs) ∧
          getKey? fpkvs "periods" = some (.arr ps) ∧
          ∀ p ∈ ps, ∃ qkvs, p = Json.obj qkvs ∧
            (getKey? qkvs "name").isSome ∧ (getKey? qkvs "temperature").isSome ∧
            (getKey? qkvs "temperatureUnit").isSome ∧ (getKey? qkvs "windSpeed").isSome ∧
            (getKey? qkvs "windDirection").isSome ∧ (getKey? qkvs "detailedForecast").isSome) →
      isOkE (get_forecast la lo respond) = true) ∧
    (∀ (u : String) (respond : String → Option Json) (kvs : List (String × Json)),
      respond (get_github_user_url u) = some (.obj kvs) →
      isOkE (get_github_user u respond) = true) ∧
    (∀ (u : String) (L : Int) (respond : String → Option Json) (items : List Json),
      respond (get_github_repos_url u L) = some (.arr items) →
      (∀ x ∈ items, ∃ xkvs, x = Json.obj xkvs) →
      isOkE (get_github_repos u L respond) = true) ∧
    (∀ (o r : String) (respond : String → Option Json) (kvs : List (String × Json)),
      respond (get_github_repo_info_url o r) = some (.obj kvs) →
      (getKey? kvs "license" = none ∨ ∃ lkvs, getKey? kvs "license" = some (.obj lkvs)) →
      isOkE (get_github_repo_info o r respond) = true) ∧
    (∀ (q : String) (L : Int) (respond : String → Option Json)
        (kvs : List (String × Json)) (items : List Json),
      respond (search_github_repos_url q L) = some (.obj kvs) →
      getKey? kvs "items" = some (.arr items) →
      (∀ x ∈ items, ∃ xkvs, x = Json.obj xkvs) →
      isOkE (search_github_repos q L respond) = true) ∧
    (∀ (o r s : String) (L : Int) (respond : String → Option Json) (items : List Json),
      respond (get_github_issues_url o r s L) = some (.arr items) →
      (∀ x ∈ items, ∃ ikvs, x = Json.obj ikvs ∧
        (getKey? ikvs "labels" = none ∨
          ∃ ls, getKey? ikvs "labels" = some (.arr ls) ∧
            ∀ l ∈ ls, ∃ lkvs nm, l = Json.obj lkvs ∧ getKey? lkvs "name" = some (.str nm)) ∧
        (getKey? ikvs "user" = none ∨ ∃ ukvs, getKey? ikvs "user" = some (.obj ukvs))) →
      isOkE (get_github_issues o r s L respond) = true) ∧
    (∀ (o r : String) (L : Int) (respond : String → Option Json) (items : List Json),
      respond (get_github_commits_url o r L) = some (.arr items) →
      (∀ x ∈ items, ∃ ckvs, x = Json.obj ckvs ∧
        (getKey? ckvs "sha" = none ∨ ∃ s2, getKey? ckvs "sha" = some (.str s2)) ∧
        (getKey? ckvs "commit" = none ∨
          ∃ mkvs, getKey? ckvs "commit" = some (.obj mkvs) ∧
            (getKey? mkvs "message" = none ∨ ∃ m, getKey? mkvs "message" = some (.str m)) ∧
            (getKey? mkvs "author" = none ∨ ∃ akvs, getKey? mkvs "author" = some (.obj akvs)))) →
      isOkE (get_github_commits o r L respond) = true) ∧
    (∀ (key : Option String) (sn : String) (respond : String → Json) (kvs : List (String × Json)),
      keyTruthy key = true →
      respond (station_name_to_code_url (key.getD "") (pyUpper sn)) = .obj kvs →
      (∀ xs, getKey? kvs "Station" = some (.arr xs) → ∀ x ∈ xs, ∃ xkvs, x = Json.obj xkvs) →
      isOkE (station_name_to_code key sn respond).1 = true) ∧
    (∀ (key : Option String) (tn : String) (respond : String → Json) (kvs : List (String × Json)),
      keyTruthy key = true →
      respond (get_train_schedule_url (key.getD "") tn) = .obj kvs →
      (∀ xs, getKey? kvs "Route" = some (.arr xs) → ∀ x ∈ xs, ∃ xkvs, x = Json.obj xkvs) →
      isOkE (get_train_schedule_indian_rail key tn respond).1 = true) ∧
    (∀ (key : Option String) (sc : String) (respond : String → Json) (kvs : List (String × Json)),
      keyTruthy key = true →
      respond (get_all_trains_url (key.getD "") (pyUpper sc)) = .obj kvs →
      (∀ v, getKey? kvs "Trains" = some v →
        ∃ xs, v = Json.arr xs ∧ ∀ x ∈ xs, ∃ xkvs, x = Json.obj xkvs) →
      isOkE (get_all_trains_on_station key sc respond).1 = true) := by
  refine ⟨?_, ?_, ?_, ?_, ?_, ?_, ?_, ?_, ?_, ?_, ?_⟩
  · intro state respond kvs feats h1 h2 hwf
    rw [get_alerts, h1]
    have hne : kvs.isEmpty = false := getKey?_ne_nil h2
    have hany : kvs.any (fun kv => kv.1 == "features") = true := getKey?_any h2
    cases feats with
    | nil => simp [truthy, hne, pyInStr, hany, pyIndex, h2, isOkE]
    | cons f fs =>
      have hall : ∀ x ∈ f :: fs, ∃ y, format_alert x = .ok y := by
        intro x hx
        obtain ⟨fkvs, pkvs, heq, hp⟩ := hwf x hx
        subst heq
        exact ⟨_, format_alert_ok fkvs pkvs hp⟩
      obtain ⟨ys, hys⟩ := mapE_ok_of_all format_alert (f :: fs) hall
      simp [truthy, hne, pyInStr, hany, pyIndex, h2, pyIter, hys, isOkE]
  · intro la lo respond pkvs ppkvs fv h1 h2 h3 h4
    rw [get_forecast, h1]
    have hne : pkvs.isEmpty = false := getKey?_ne_nil h2
    cases fv with
    | str u =>
      cases hru : respond u with
      | none => simp [truthy, hne, pyIndex, h2, h3, hru, isOkE]
      | some v =>
        obtain ⟨fkvs, fpkvs, ps, heq, hp1, hp2, hps⟩ := h4 u v rfl hru
        subst heq
        have hne2 : fkvs.isEmpty = false := getKey?_ne_nil hp1
        have hall : ∀ x ∈ ps.take 5, ∃ y, forecastEntry x = .ok y := by
          intro x hx
          obtain ⟨qkvs, heq2, i1, i2, i3, i4, i5, i6⟩ := hps x (List.take_subset 5 ps hx)
          subst heq2
          obtain ⟨v1, hv1⟩ := Option.isSome_iff_exists.mp i1
          obtain ⟨v2, hv2⟩ := Option.isSome_iff_exists.mp i2
          obtain ⟨v3, hv3⟩ := Option.isSome_iff_exists.mp i3
          obtain ⟨v4, hv4⟩ := Option.isSome_iff_exists.mp i4
          obtain ⟨v5, hv5⟩ := Option.isSome_iff_exists.mp i5
          obtain ⟨v6, hv6⟩ := Option.isSome_iff_exists.mp i6
          exact ⟨_, forecastEntry_ok qkvs v1 v2 v3 v4 v5 v6 hv1 hv2 hv3 hv4 hv5 hv6⟩
        obtain ⟨ys, hys⟩ := mapE_ok_of_all forecastEntry (ps.take 5) hall
        simp [truthy, hne, hne2, pyIndex, h2, h3, hru, hp1, hp2, forecastEntriesOf,
          pySliceTake, pyIter, hys, isOkE]
    | null => simp [truthy, hne, pyIndex, h2, h3, isOkE]
    | bool b => simp [truthy, hne, pyIndex, h2, h3, isOkE]
    | num n => simp [truthy, hne, pyIndex, h2, h3, isOkE]
    | arr es => simp [truthy, hne, pyIndex, h2, h3, isOkE]
    | obj fs => simp [truthy, hne, pyIndex, h2, h3, isOkE]
  · intro u respond kvs h
    rw [get_github_user, h]
    cases hk : kvs.isEmpty with
    | true => simp [truthy, hk, isOkE]
    | false => simp [truthy, hk, pyGetD, isOkE]
  · intro u L respond items h hobj
    rw [get_github_repos, h]
    cases items with
    | nil => simp [truthy, isOkE]
    | cons x xs =>
      have hall : ∀ a ∈ x :: xs, ∃ y, repoEntry a = .ok y := by
        intro a ha
        obtain ⟨akvs, heq⟩ := hobj a ha
        subst heq
        exact ⟨_, repoEntry_eq akvs⟩
      obtain ⟨ys, hys⟩ := mapE_ok_of_all repoEntry (x :: xs) hall
      simp [truthy, reposEntriesOf, pyIter, hys, isOkE]
  · intro o r respond kvs h hlic
    rw [get_github_repo_info, h]
    cases hk : kvs.isEmpty with
    | true => simp [truthy, hk, isOkE]
    | false =>
      rcases hlic with hnone | ⟨lkvs, hsome⟩
      · simp [truthy, hk, pyGetD, pyGet1, hnone, isOkE]
      · cases hlk : lkvs.isEmpty with
        | true => simp [truthy, hk, pyGetD, pyGet1, hsome, hlk, isOkE]
        | false => simp [truthy, hk, pyGetD, pyGet1, hsome, hlk, isOkE]
  · intro q L respond kvs items h1 h2 hobj
    rw [search_github_repos, h1]
    have hne : kvs.isEmpty = false := getKey?_ne_nil h2
    have hany : kvs.any (fun kv => kv.1 == "items") = true := getKey?_any h2
    have hall : ∀ a ∈ items, ∃ y, searchEntry a = .ok y := by
      intro a ha
      obtain ⟨akvs, heq⟩ := hobj a ha
      subst heq
      exact ⟨_, searchEntry_eq akvs⟩
    obtain ⟨ys, hys⟩ := mapE_ok_of_all searchEntry items hall
    simp [truthy, hne, pyInStr, hany, pyIndex, h2, searchEntriesOf, pyIter, hys, isOkE]
  · intro o r s L respond items h hsh
    rw [get_github_issues, h]
    cases items with
    | nil => simp [truthy, isOkE]
    | cons x xs =>
      have hall : ∀ a ∈ x :: xs, ∃ y, issueEntry a = .ok y := by
        intro a ha
        obtain ⟨ikvs, heq, hlab, huser⟩ := hsh a ha
        subst heq
        exact isOkE_exists (issueEntry_ok ikvs hlab huser)
      obtain ⟨ys, hys⟩ := mapE_ok_of_all issueEntry (x :: xs) hall
      simp [truthy, issuesEntriesOf, pyIter, hys, isOkE]
  · intro o r L respond items h hsh
    rw [get_github_commits, h]
    cases items with
    | nil => simp [truthy, isOkE]
    | cons x xs =>
      have hall : ∀ a ∈ x :: xs, ∃ y, commitEntry a = .ok y := by
        intro a ha
        obtain ⟨ckvs, heq, hsha, hcm⟩ := hsh a ha
        subst heq
        exact isOkE_exists (commitEntry_ok ckvs hsha hcm)
      obtain ⟨ys, hys⟩ := mapE_ok_of_all commitEntry (x :: xs) hall
      simp [truthy, commitsEntriesOf, pyIter, hys, isOkE]
  · intro key sn respond kvs hk hr hsh
    simp only [station_name_to_code, hk, Bool.not_true, Bool.false_eq_true, if_false, hr]
    cases hae : kvs.any (fun kv => kv.1 == "error") with
    | true =>
      obtain ⟨v, hv⟩ := getKey?_of_any hae
      simp [station_render, pyInStr, hae, pyIndex, hv, isOkE]
    | false =>
      cases hrc : jsonEqNum ((getKey? kvs "ResponseCode").getD .null) 200 with
      | false => simp [station_render, pyInStr, hae, pyGet1, pyGetD, hrc, isOkE]
      | true =>
        cases hst : truthy ((getKey? kvs "Station").getD .null) with
        | false => simp [station_render, pyInStr, hae, pyGet1, pyGetD, hrc, hst, isOkE]
        | true =>
          obtain ⟨v, hv, hvt⟩ := truthy_getD_null hst
          cases v with
          | arr xs =>
            have hobj := hsh xs hv
            cases hxe : xs.isEmpty with
            | true =>
              simp [station_render, pyInStr, hae, pyGet1, pyGetD, hrc, hst, hvt, pyIndex, hv, hxe, isOkE]
            | false =>
              have hall : ∀ x ∈ xs.take 5, ∃ y, stationEntry x = .ok y := by
                intro x hx
                obtain ⟨xkvs, heq⟩ := hobj x (List.take_subset 5 xs hx)
                subst heq
                exact ⟨_, stationEntry_eq xkvs⟩
              obtain ⟨ys, hys⟩ := mapE_ok_of_all stationEntry (xs.take 5) hall
              simp [station_render, pyInStr, hae, pyGet1, pyGetD, hrc, hst, hvt, pyIndex, hv, hxe,
                stationEntries, hys, isOkE]
          | null => simp [station_render, pyInStr, hae, pyGet1, pyGetD, hrc, hst, hvt, pyIndex, hv, isOkE]
          | bool b => simp [station_render, pyInStr, hae, pyGet1, pyGetD, hrc, hst, hvt, pyIndex, hv, isOkE]
          | num n => simp [station_render, pyInStr, hae, pyGet1, pyGetD, hrc, hst, hvt, pyIndex, hv, isOkE]
          | str s2 => simp [station_render, pyInStr, hae, pyGet1, pyGetD, hrc, hst, hvt, pyIndex, hv, isOkE]
          | obj fs => simp [station_render, pyInStr, hae, pyGet1, pyGetD, hrc, hst, hvt, pyIndex, hv, isOkE]
  · intro key tn respond kvs hk hr hsh
    simp only [get_train_schedule_indian_rail, hk, Bool.not_true, Bool.false_eq_true, if_false, hr]
    cases hae : kvs.any (fun kv => kv.1 == "error") with
    | true =>
      obtain ⟨v, hv⟩ := getKey?_of_any hae
      simp [train_schedule_render, pyInStr, hae, pyIndex, hv, isOkE]
    | false =>
      cases hrc : jsonEqNum ((getKey? kvs "ResponseCode").getD .null) 200 with
      | false => simp [train_schedule_render, pyInStr, hae, pyGet1, pyGetD, hrc, isOkE]
      | true =>
        cases hst : truthy ((getKey? kvs "Route").getD .null) with
        | false => simp [train_schedule_render, pyInStr, hae, pyGet1, pyGetD, hrc, hst, isOkE]
        | true =>
          obtain ⟨v, hv, hvt⟩ := truthy_getD_null hst
          cases v with
          | arr xs =>
            have hobj := hsh xs hv
            have hall : ∀ x ∈ xs.take 10, ∃ y, routeEntry x = .ok y := by
              intro x hx
              obtain ⟨xkvs, heq⟩ := hobj x (List.take_subset 10 xs hx)
              subst heq
              exact ⟨_, routeEntry_eq xkvs⟩
            obtain ⟨ys, hys⟩ := mapE_ok_of_all routeEntry (xs.take 10) hall
            simp [train_schedule_render, pyInStr, hae, pyGet1, pyGetD, hrc, hst, hvt, pyIndex, hv,
              routeEntries, hys, isOkE]
          | null => simp [train_schedule_render, pyInStr, hae, pyGet1, pyGetD, hrc, hst, hvt, pyIndex, hv, isOkE]
          | bool b => simp [train_schedule_render, pyInStr, hae, pyGet1, pyGetD, hrc, hst, hvt, pyIndex, hv, isOkE]
          | num n => simp [train_schedule_render, pyInStr, hae, pyGet1, pyGetD, hrc, hst, hvt, pyIndex, hv, isOkE]
          | str s2 => simp [train_schedule_render, pyInStr, hae, pyGet1, pyGetD, hrc, hst, hvt, pyIndex, hv, isOkE]
          | obj fs => simp [train_schedule_render, pyInStr, hae, pyGet1, pyGetD, hrc, hst, hvt, pyIndex, hv, isOkE]
  · intro key sc respond kvs hk hr hsh
    simp only [get_all_trains_on_station, hk, Bool.not_true, Bool.false_eq_true, if_false, hr]
    cases hae : kvs.any (fun kv => kv.1 == "error") with
    | true =>
      obtain ⟨v, hv⟩ := getKey?_of_any hae
      simp [all_trains_render, pyInStr, hae, pyIndex, hv, isOkE]
    | false =>
      cases hrc : jsonEqNum ((getKey? kvs "ResponseCode").getD .null) 200 with
      | false => simp [all_trains_render, pyInStr, hae, pyGet1, pyGetD, hrc, isOkE]
      | true =>
        cases hst : truthy ((getKey? kvs "Trains").getD .null) with
        | false => simp [all_trains_render, pyInStr, hae, pyGet1, pyGetD, hrc, hst, isOkE]
        | true =>
          obtain ⟨v, hv, hvt⟩ := truthy_getD_null hst
          obtain ⟨xs, heq, hobj⟩ := hsh v hv
          subst heq
          have hall : ∀ x ∈ xs.take 15, ∃ y, trainEntry x = .ok y := by
            intro x hx
            obtain ⟨xkvs, heq2⟩ := hobj x (List.take_subset 15 xs hx)
            subst heq2
            exact ⟨_, trainEntry_eq xkvs⟩
          obtain ⟨ys, hys⟩ := mapE_ok_of_all trainEntry (xs.take 15) hall
          simp [all_trains_render, pyInStr, hae, pyGet1, pyGetD, hrc, hst, pyIndex, hv, hvt,
            trainEntriesOf, pySliceTake, pyIter, hys, isOkE]

/-- Witness for C2 (amended): every conjunct applied at a concrete
well-shaped responder, with extra fields present where the shape allows
them. -/
theorem claim_C2_witness :
    isOkE (get_alerts "CA" (fun _ => some (.obj [("features", .arr [.obj [("properties", .obj [])]])]))) = true ∧
    isOkE (get_forecast "37.0" "-122.0" (fun u =>
      if u == "FURL" then some (.obj [("properties", .obj [("periods", .arr [])]), ("extra", .num 1)])
      else some (.obj [("properties", .obj [("forecast", .str "FURL")]), ("extra", .null)]))) = true ∧
    isOkE (get_github_user "octocat" (fun _ => some (.obj [("login", .str "octo")]))) = true ∧
    isOkE (get_github_repos "octocat" 10 (fun _ => some (.arr [.obj []]))) = true ∧
    isOkE (get_github_repo_info "octo" "repo" (fun _ => some (.obj [("full_name", .str "octo/repo")]))) = true ∧
    isOkE (search_github_repos "lean" 10 (fun _ => some (.obj [("items", .arr [.obj []])]))) = true ∧
    isOkE (get_github_issues "octo" "repo" "open" 10 (fun _ => some (.arr [.obj []]))) = true ∧
    isOkE (get_github_commits "octo" "repo" 10 (fun _ => some (.arr [.obj []]))) = true ∧
    isOkE (station_name_to_code (some "KEY") "delhi"
      (fun _ => .obj [("ResponseCode", .num 200), ("Station", .arr [.obj []])])).1 = true ∧
    isOkE (get_train_schedule_indian_rail (some "KEY") "12345"
      (fun _ => .obj [("ResponseCode", .num 200), ("Route", .arr [.obj []])])).1 = true ∧
    isOkE (get_all_trains_on_station (some "KEY") "ndls"
      (fun _ => .obj [("ResponseCode", .num 200), ("Trains", .arr [.obj []])])).1 = true :=
  ⟨claim_C2.1 "CA" _ [("features", .arr [.obj [("properties", .obj [])]])] [.obj [("properties", .obj [])]]
      rfl rfl
      (by
        intro f hf
        rw [List.mem_singleton] at hf
        subst hf
        exact ⟨[("properties", .obj [])], [], rfl, rfl⟩),
   claim_C2.2.1 "37.0" "-122.0" _
      [("properties", .obj [("forecast", .str "FURL")]), ("extra", .null)]
      [("forecast", .str "FURL")] (.str "FURL") rfl rfl rfl
      (by
        intro u v hu hv
        injection hu with hu2
        subst hu2
        injection hv with hv2
        subst hv2
        exact ⟨[("properties", .obj [("periods", .arr [])]), ("extra", .num 1)],
          [("periods", .arr [])], [], rfl, rfl, rfl,
          by intro p hp; exact absurd hp (List.not_mem_nil p)⟩),
   claim_C2.2.2.1 "octocat" _ [("login", .str "octo")] rfl,
   claim_C2.2.2.2.1 "octocat" 10 _ [.obj []] rfl
      (by
        intro x hx
        rw [List.mem_singleton] at hx
        subst hx
        exact ⟨[], rfl⟩),
   claim_C2.2.2.2.2.1 "octo" "repo" _ [("full_name", .str "octo/repo")] rfl (Or.inl rfl),
   claim_C2.2.2.2.2.2.1 "lean" 10 _ [("items", .arr [.obj []])] [.obj []] rfl rfl
      (by
        intro x hx
        rw [List.mem_singleton] at hx
        subst hx
        exact ⟨[], rfl⟩),
   claim_C2.2.2.2.2.2.2.1 "octo" "repo" "open" 10 _ [.obj []] rfl
      (by
        intro x hx
        rw [List.mem_singleton] at hx
        subst hx
        exact ⟨[], rfl, Or.inl rfl, Or.inl rfl⟩),
   claim_C2.2.2.2.2.2.2.2.1 "octo" "repo" 10 _ [.obj []] rfl
      (by
        intro x hx
        rw [List.mem_singleton] at hx
        subst hx
        exact ⟨[], rfl, Or.inl rfl, Or.inl rfl⟩),
   claim_C2.2.2.2.2.2.2.2.2.1 (some "KEY") "delhi" _
      [("ResponseCode", .num 200), ("Station", .arr [.obj []])] rfl rfl
      (by
        intro xs hxs
        injection hxs with h
        injection h with h2
        subst h2
        intro x hx
        rw [List.mem_singleton] at hx
        subst hx
        exact ⟨[], rfl⟩),
   claim_C2.2.2.2.2.2.2.2.2.2.1 (some "KEY") "12345" _
      [("ResponseCode", .num 200), ("Route", .arr [.obj []])] rfl rfl
      (by
        intro xs hxs
        injection hxs with h
        injection h with h2
        subst h2
        intro x hx
        rw [List.mem_singleton] at hx
        subst hx
        exact ⟨[], rfl⟩),
   claim_C2.2.2.2.2.2.2.2.2.2.2 (some "KEY") "ndls" _
      [("ResponseCode", .num 200), ("Trains", .arr [.obj []])] rfl rfl
      (by
        intro v hv
        injection hv with h
        subst h
        refine ⟨[.obj []], rfl, ?_⟩
        intro x hx
        rw [List.mem_singleton] at hx
        subst hx
        exact ⟨[], rfl⟩)⟩

